import Mathlib

/-
Verification of the pixel-art generator script.

The script has two components:
  * generate_pixel_data (width, height, palette) : builds a checkerboard
    grid of RGB colors, indexing the palette at 0 or 1 depending on the
    parity of the coordinates;  Python list indexing raises IndexError
    when the index is out of range, which we model with Except.
  * create_image_from_pixels (pixel_data, output_filename) : validates the
    grid is non-empty, fills a canvas from pixel_data[y][x] (an access that
    raises an uncaught IndexError when a later row is shorter than the
    first), then saves the image; the save is an external I/O effect,
    modelled by a SaveResult parameter that also says whether a failed
    save left a partially written file behind; an IOError from the save is
    caught and turned into a printed message.
-/

/-- A Python RGB tuple: three machine integers. -/
abbrev Color := Int × Int × Int

/-- The message carried by a Python IndexError from list indexing. -/
def indexErrorMsg : String := "IndexError: list index out of range"

/-- Python list indexing with a non-negative index: `palette[i]` returns the
element when `i` is in range and raises IndexError otherwise. -/
def pyIndex (l : List Color) (i : Nat) : Except String Color :=
  match l.get? i with
  | some c => Except.ok c
  | none => Except.error indexErrorMsg

/-- Python `range(n)` for an int `n`: the ints `0, 1, ..., n-1`, empty when
`n <= 0` (Int.toNat clamps negatives to 0, exactly like Python range). -/
def pyRange (n : Int) : List Int :=
  (List.range n.toNat).map (fun k : Nat => (k : Int))

/-- The pattern condition of the source, verbatim:
`(x % 2 == 0 and y % 2 == 0) or (x % 2 != 0 and y % 2 != 0)`.
Int `%` by the positive constant 2 agrees with Python `%`. -/
def pattern_cond (x y : Int) : Bool :=
  (x % 2 == 0 && y % 2 == 0) || (x % 2 != 0 && y % 2 != 0)

/-- The `color_index` variable of the inner loop: 0 when the pattern
condition holds, 1 otherwise. -/
def color_index (x y : Int) : Nat :=
  if pattern_cond x y then 0 else 1

/-- The inner loop of generate_pixel_data: builds one row, left to right,
aborting at the first out-of-range palette access exactly as Python does. -/
def rowLoop (palette : List Color) (y : Int) : List Int → Except String (List Color)
  | [] => Except.ok []
  | x :: xs =>
    match pyIndex palette (color_index x y) with
    | Except.error e => Except.error e
    | Except.ok selected_color =>
      match rowLoop palette y xs with
      | Except.error e => Except.error e
      | Except.ok rest => Except.ok (selected_color :: rest)

/-- The outer loop of generate_pixel_data: builds the rows top to bottom,
aborting at the first row whose construction raised. -/
def gridLoop (palette : List Color) (width : Int) : List Int → Except String (List (List Color))
  | [] => Except.ok []
  | y :: ys =>
    match rowLoop palette y (pyRange width) with
    | Except.error e => Except.error e
    | Except.ok row =>
      match gridLoop palette width ys with
      | Except.error e => Except.error e
      | Except.ok rest => Except.ok (row :: rest)

/-- generate_pixel_data from the source: for y in range(height), for x in
range(width), append palette[color_index]; an IndexError propagates out and
no grid is returned. -/
def generate_pixel_data (width height : Int) (palette : List Color) :
    Except String (List (List Color)) :=
  gridLoop palette width (pyRange height)

/-- Access `grid[y][x]` as the writer (and the spec) reads the grid. -/
def gridGet (grid : List (List Color)) (y x : Nat) : Option Color :=
  (grid.get? y).bind (fun row => row.get? x)

/-- The spec's own parity predicate, stated from the spec text (for the
refinement claim only): `parity = (x mod 2 == 0) == (y mod 2 == 0)`. -/
def spec_parity (x y : Int) : Bool :=
  (x % 2 == 0) == (y % 2 == 0)

/-- Everything observable about one run of create_image_from_pixels: the
messages printed in order, how many times img.save was invoked, whether a
file (possibly partial) exists at the path afterwards, and the exception
(if any) escaping to the caller. -/
structure WriterRun where
  printed : List String
  saveAttempts : Nat
  fileCreated : Bool
  raised : Option String

/-- The outcome of the external img.save call: success, or an IOError with
its cause; since the source promises nothing about partial output on
failure, the environment also decides whether a failed save left a
partially written file behind (`leftover`). -/
inductive SaveResult where
  | ok : SaveResult
  | ioError (cause : String) (leftover : Bool) : SaveResult

/-- The inner canvas-fill loop of create_image_from_pixels: for x in
range(width), evaluate pixel_data[y][x]; the access raises IndexError when
the row is shorter than width (the canvas content itself has no further
observable effect, so only the raising is recorded). -/
def fillRowLoop (row : List Color) : List Nat → Except String Unit
  | [] => Except.ok ()
  | x :: xs =>
    match row.get? x with
    | some _ => fillRowLoop row xs
    | none => Except.error indexErrorMsg

/-- The outer canvas-fill loop of create_image_from_pixels: for y in
range(height), fill row y; the access pixel_data[y] is always in range,
and an IndexError from a short row aborts the loop. -/
def fillLoop (width : Nat) : List (List Color) → Except String Unit
  | [] => Except.ok ()
  | row :: rows =>
    match fillRowLoop row (List.range width) with
    | Except.ok _ => fillLoop width rows
    | Except.error e => Except.error e

/-- create_image_from_pixels from the source.  The height-zero and
width-zero checks print a diagnostic and return early without touching the
image; then the canvas is filled from pixel_data[y][x] — an IndexError
there (a row shorter than the first) is not inside the try block, so it
escapes to the caller with nothing printed, no save attempted and no file
produced; otherwise img.save runs once, its outcome supplied by
`saveResult` (the external file system), and an IOError is caught and
reported only by a printed message naming the path, the existence of a
partially written file being up to the environment. -/
def create_image_from_pixels (pixel_data : List (List Color))
    (output_filename : String) (saveResult : SaveResult) : WriterRun :=
  match pixel_data with
  | [] =>
    { printed := ["Error: Pixel data is empty."],
      saveAttempts := 0, fileCreated := false, raised := none }
  | row0 :: rest =>
    match row0 with
    | [] =>
      { printed := ["Error: Pixel data rows are empty."],
        saveAttempts := 0, fileCreated := false, raised := none }
    | _ :: _ =>
      match fillLoop row0.length (row0 :: rest) with
      | Except.error e =>
        { printed := [], saveAttempts := 0, fileCreated := false,
          raised := some e }
      | Except.ok _ =>
        match saveResult with
        | SaveResult.ok =>
          { printed := ["Image saved successfully as " ++ output_filename],
            saveAttempts := 1, fileCreated := true, raised := none }
        | SaveResult.ioError _ leftover =>
          { printed := ["Error: Could not save image to " ++ output_filename],
            saveAttempts := 1, fileCreated := leftover, raised := none }

/- Helper lemmas about the loops. -/

theorem pattern_cond_iff_nat (x y : Nat) :
    pattern_cond (x : Int) (y : Int) = true ↔ x % 2 = y % 2 := by
  unfold pattern_cond
  simp only [Bool.or_eq_true, Bool.and_eq_true, beq_iff_eq, bne_iff_ne, ne_eq]
  omega

theorem pyRange_length (n : Int) : (pyRange n).length = n.toNat := by
  unfold pyRange
  rw [List.length_map, List.length_range]

theorem pyRange_nonpos {n : Int} (hn : n ≤ 0) : pyRange n = [] := by
  have h0 : n.toNat = 0 := by omega
  simp [pyRange, h0]

theorem pyRange_getElem {n : Int} {k : Nat} (hk : (k : Int) < n) :
    (pyRange n).get? k = some (k : Int) := by
  unfold pyRange
  rw [List.get?_eq_getElem?, List.getElem?_map, List.getElem?_range (by omega)]
  rfl

theorem mem_pyRange {z n : Int} : z ∈ pyRange n ↔ 0 ≤ z ∧ z < n := by
  simp only [pyRange, List.mem_map, List.mem_range]
  constructor
  · rintro ⟨a, ha, rfl⟩
    omega
  · intro hz
    exact ⟨z.toNat, by omega, by omega⟩

theorem rowLoop_pair (p0 p1 : Color) (ps : List Color) (y : Int) (xs : List Int) :
    rowLoop (p0 :: p1 :: ps) y xs =
      Except.ok (xs.map (fun x => if pattern_cond x y then p0 else p1)) := by
  induction xs with
  | nil => rfl
  | cons x xs ih =>
    by_cases h : pattern_cond x y = true
    · simp [rowLoop, pyIndex, color_index, h, ih]
    · simp [rowLoop, pyIndex, color_index, h, ih]

theorem gridLoop_pair (p0 p1 : Color) (ps : List Color) (w : Int) (ys : List Int) :
    gridLoop (p0 :: p1 :: ps) w ys =
      Except.ok (ys.map (fun y =>
        (pyRange w).map (fun x => if pattern_cond x y then p0 else p1))) := by
  induction ys with
  | nil => rfl
  | cons y ys ih =>
    simp [gridLoop, rowLoop_pair, ih]

theorem generate_pair (w h : Int) (p0 p1 : Color) (ps : List Color) :
    generate_pixel_data w h (p0 :: p1 :: ps) =
      Except.ok ((pyRange h).map (fun y =>
        (pyRange w).map (fun x => if pattern_cond x y then p0 else p1))) :=
  gridLoop_pair p0 p1 ps w (pyRange h)

theorem gridLoop_zero_width (palette : List Color) {w : Int} (hw : w ≤ 0)
    (ys : List Int) :
    gridLoop palette w ys = Except.ok (ys.map (fun _ => ([] : List Color))) := by
  induction ys with
  | nil => rfl
  | cons y ys ih =>
    simp [gridLoop, pyRange_nonpos hw, rowLoop, ih]

theorem pyIndex_error {l : List Color} {i : Nat} {e : String}
    (h : pyIndex l i = Except.error e) : e = indexErrorMsg := by
  unfold pyIndex at h
  cases hg : l.get? i with
  | none =>
    rw [hg] at h
    injection h with h2
    exact h2.symm
  | some c =>
    rw [hg] at h
    cases h

theorem rowLoop_err_msg (palette : List Color) (y : Int) (xs : List Int) (e : String)
    (h : rowLoop palette y xs = Except.error e) : e = indexErrorMsg := by
  induction xs with
  | nil => simp [rowLoop] at h
  | cons x xs ih =>
    rw [rowLoop] at h
    split at h
    · rename_i e2 hi
      injection h with h2
      exact h2 ▸ pyIndex_error hi
    · split at h
      · rename_i e2 hr
        injection h with h2
        exact ih (h2 ▸ hr)
      · cases h

theorem rowLoop_single_err (c : Color) (y : Int) (xs : List Int)
    (h : ∃ x ∈ xs, pattern_cond x y = false) :
    rowLoop [c] y xs = Except.error indexErrorMsg := by
  induction xs with
  | nil => simp at h
  | cons x xs ih =>
    by_cases hx : pattern_cond x y = true
    · have htail : ∃ z ∈ xs, pattern_cond z y = false := by
        rcases h with ⟨z, hz, hzf⟩
        rcases List.mem_cons.mp hz with rfl | hmem
        · rw [hx] at hzf; cases hzf
        · exact ⟨z, hmem, hzf⟩
      simp [rowLoop, pyIndex, color_index, hx, ih htail]
    · simp [rowLoop, pyIndex, color_index, hx]

theorem gridLoop_err_of_mem (palette : List Color) (w : Int) (ys : List Int)
    (h : ∃ y ∈ ys, rowLoop palette y (pyRange w) = Except.error indexErrorMsg) :
    gridLoop palette w ys = Except.error indexErrorMsg := by
  induction ys with
  | nil => simp at h
  | cons y ys ih =>
    cases hrow : rowLoop palette y (pyRange w) with
    | error e =>
      have : e = indexErrorMsg := rowLoop_err_msg palette y (pyRange w) e hrow
      simp [gridLoop, hrow, this]
    | ok row =>
      have htail : ∃ z ∈ ys, rowLoop palette z (pyRange w) = Except.error indexErrorMsg := by
        rcases h with ⟨z, hz, hzf⟩
        rcases List.mem_cons.mp hz with rfl | hmem
        · rw [hrow] at hzf; cases hzf
        · exact ⟨z, hmem, hzf⟩
      simp [gridLoop, hrow, ih htail]

theorem fillRowLoop_ok (row : List Color) (xs : List Nat)
    (h : ∀ x ∈ xs, x < row.length) : fillRowLoop row xs = Except.ok () := by
  induction xs with
  | nil => rfl
  | cons x xs ih =>
    have hx : x < row.length := h x (List.mem_cons_self x xs)
    cases hg : row.get? x with
    | none =>
      have hlen : row.length ≤ x := List.get?_eq_none.mp hg
      omega
    | some c =>
      have hg2 : row[x]? = some c := (List.get?_eq_getElem? row x) ▸ hg
      simp [fillRowLoop, hg2, ih (fun z hz => h z (List.mem_cons_of_mem x hz))]

theorem fillLoop_ok (width : Nat) (rows : List (List Color))
    (h : ∀ row ∈ rows, width ≤ row.length) : fillLoop width rows = Except.ok () := by
  induction rows with
  | nil => rfl
  | cons row rows ih =>
    have h1 : fillRowLoop row (List.range width) = Except.ok () :=
      fillRowLoop_ok row (List.range width)
        (fun x hx => lt_of_lt_of_le (List.mem_range.mp hx)
          (h row (List.mem_cons_self row rows)))
    simp [fillLoop, h1, ih (fun r hr => h r (List.mem_cons_of_mem row hr))]

/- Claim theorems. -/

/-- C1: for width >= 1, height >= 1 and a palette with at least two
entries, generate_pixel_data succeeds and every cell grid[y][x] with
0 <= x < width, 0 <= y < height holds palette[0] when x mod 2 = y mod 2
and palette[1] otherwise. -/
theorem generate_checkerboard_cell (w h : Int) (p0 p1 : Color) (ps : List Color)
    (x y : Nat) (hw : 1 ≤ w) (hh : 1 ≤ h)
    (hx : (x : Int) < w) (hy : (y : Int) < h) :
    ∃ grid, generate_pixel_data w h (p0 :: p1 :: ps) = Except.ok grid ∧
      gridGet grid y x = some (if x % 2 = y % 2 then p0 else p1) := by
  refine ⟨_, generate_pair w h p0 p1 ps, ?_⟩
  unfold gridGet
  rw [List.get?_map, pyRange_getElem hy]
  simp only [Option.map_some', Option.some_bind]
  rw [List.get?_map, pyRange_getElem hx]
  simp only [Option.map_some', Option.some_inj]
  by_cases hp : x % 2 = y % 2
  · rw [if_pos hp, if_pos ((pattern_cond_iff_nat x y).mpr hp)]
  · rw [if_neg hp, if_neg (fun hc => hp ((pattern_cond_iff_nat x y).mp hc))]

/-- C1 witness: the cell (x, y) = (1, 0) of a 2 by 2 grid has different
parities, so it holds palette[1]. -/
theorem generate_checkerboard_cell_witness :
    ∃ grid, generate_pixel_data 2 2 [(50,50,50), (200,200,200)] = Except.ok grid ∧
      gridGet grid 0 1 =
        some (if 1 % 2 = 0 % 2 then ((50,50,50) : Color) else (200,200,200)) :=
  generate_checkerboard_cell 2 2 (50,50,50) (200,200,200) [] 1 0
    (by decide) (by decide) (by decide) (by decide)

/-- C2: for positive width and height and a palette with at least two
entries, generate_pixel_data succeeds, the grid has exactly height rows,
and every row has exactly width colors. -/
theorem generate_shape_invariant (w h : Int) (p0 p1 : Color) (ps : List Color)
    (hw : 0 < w) (hh : 0 < h) :
    ∃ grid, generate_pixel_data w h (p0 :: p1 :: ps) = Except.ok grid ∧
      (grid.length : Int) = h ∧
      grid.map (fun row => (row.length : Int)) = List.replicate h.toNat w := by
  refine ⟨_, generate_pair w h p0 p1 ps, ?_, ?_⟩
  · rw [List.length_map, pyRange_length]
    omega
  · rw [List.map_map]
    have hcomp : ((fun row : List Color => (row.length : Int)) ∘ fun y : Int =>
        (pyRange w).map fun x => if pattern_cond x y then p0 else p1) =
        fun _ : Int => w := by
      funext y
      simp only [Function.comp, List.length_map, pyRange_length]
      omega
    rw [hcomp, List.map_const', pyRange_length]

/-- C2 witness: a 3 by 2 request yields 2 rows of 3 colors each. -/
theorem generate_shape_invariant_witness :
    ∃ grid, generate_pixel_data 3 2 [(0,0,0), (1,1,1)] = Except.ok grid ∧
      (grid.length : Int) = 2 ∧
      grid.map (fun row => (row.length : Int)) = List.replicate (2 : Int).toNat 3 :=
  generate_shape_invariant 3 2 (0,0,0) (1,1,1) [] (by decide) (by decide)

/-- C3 counterexample: with the single-entry palette [(1,2,3)] there is no
up-front validation and no ConfigurationError: a 1 by 1 request succeeds
outright, and the 2 by 2 request of the claim fails with the in-loop
IndexError from palette[1], not with a pre-construction configuration
check. -/
theorem generate_no_config_validation_cex :
    generate_pixel_data 1 1 [(1,2,3)] = Except.ok [[(1,2,3)]] ∧
    generate_pixel_data 2 2 [(1,2,3)] = Except.error indexErrorMsg :=
  ⟨rfl, rfl⟩

/-- C3 amended: with a single-entry palette and width >= 1, height >= 1
where the grid is larger than 1 by 1, generate_pixel_data raises the
IndexError of the mid-loop palette[1] access and returns no grid; there is
no ConfigurationError and no validation before grid construction. -/
theorem generate_single_palette_indexError (c : Color) (w h : Int)
    (hw : 1 ≤ w) (hh : 1 ≤ h) (hbig : 2 ≤ w ∨ 2 ≤ h) :
    generate_pixel_data w h [c] = Except.error indexErrorMsg := by
  unfold generate_pixel_data
  apply gridLoop_err_of_mem
  rcases hbig with hw2 | hh2
  · refine ⟨0, mem_pyRange.mpr ⟨le_refl 0, by omega⟩, ?_⟩
    apply rowLoop_single_err
    exact ⟨1, mem_pyRange.mpr ⟨by omega, by omega⟩, by decide⟩
  · refine ⟨1, mem_pyRange.mpr ⟨by omega, by omega⟩, ?_⟩
    apply rowLoop_single_err
    exact ⟨0, mem_pyRange.mpr ⟨by omega, by omega⟩, by decide⟩

/-- C3 amended witness: a 3 by 1 grid from a single-entry palette raises
the IndexError. -/
theorem generate_single_palette_indexError_witness :
    generate_pixel_data 3 1 [(9,9,9)] = Except.error indexErrorMsg :=
  generate_single_palette_indexError (9,9,9) 3 1 (by decide) (by decide)
    (Or.inl (by decide))

/-- C4: a zero-row grid, or a grid whose first row is empty, makes the
writer print the corresponding distinct diagnostic and return early: the
save is never invoked, no file is created, and the call returns normally
(a recoverable condition, not a crash). -/
theorem writer_empty_input_rejected (pd : List (List Color)) (fn : String)
    (sv : SaveResult)
    (h : pd = [] ∨ ∃ rest, pd = [] :: rest) :
    (create_image_from_pixels pd fn sv).saveAttempts = 0 ∧
    (create_image_from_pixels pd fn sv).fileCreated = false ∧
    (create_image_from_pixels pd fn sv).raised = none ∧
    ((create_image_from_pixels pd fn sv).printed = ["Error: Pixel data is empty."] ∨
     (create_image_from_pixels pd fn sv).printed = ["Error: Pixel data rows are empty."]) := by
  rcases h with rfl | ⟨rest, rfl⟩
  · exact ⟨rfl, rfl, rfl, Or.inl rfl⟩
  · exact ⟨rfl, rfl, rfl, Or.inr rfl⟩

/-- C4 witness: the zero-row grid is rejected without a save attempt. -/
theorem writer_empty_input_rejected_witness :
    (create_image_from_pixels [] "art.png" SaveResult.ok).saveAttempts = 0 ∧
    (create_image_from_pixels [] "art.png" SaveResult.ok).fileCreated = false ∧
    (create_image_from_pixels [] "art.png" SaveResult.ok).raised = none ∧
    ((create_image_from_pixels [] "art.png" SaveResult.ok).printed =
        ["Error: Pixel data is empty."] ∨
     (create_image_from_pixels [] "art.png" SaveResult.ok).printed =
        ["Error: Pixel data rows are empty."]) :=
  writer_empty_input_rejected [] "art.png" SaveResult.ok (Or.inl rfl)

/-- C5 counterexample: on a failing save the writer's entire observable
run is identical for the causes "disk full" and "permission denied", and
nothing is raised to the caller: the reported condition names the path but
cannot contain the underlying cause, and the caller receives no
inspectable error value — the IOError is caught and reduced to a printed
message. -/
theorem writer_save_failure_swallowed_cex :
    create_image_from_pixels [[(0,0,0)]] "out.png"
        (SaveResult.ioError "disk full" false) =
      create_image_from_pixels [[(0,0,0)]] "out.png"
        (SaveResult.ioError "permission denied" false) ∧
    (create_image_from_pixels [[(0,0,0)]] "out.png"
        (SaveResult.ioError "disk full" false)).raised = none :=
  ⟨rfl, rfl⟩

/-- C5 amended: on a grid whose later rows are at least as long as the
first (the rectangular case the writer is specified for), a failing save
is caught by the except clause: the writer prints exactly one message
naming the path (and not the cause), makes exactly one save attempt (no
retry), and returns normally with nothing raised to the caller; whether a
partially written file remains is decided by the underlying save, not by
the writer. -/
theorem writer_save_failure_behavior (c : Color) (r : List Color)
    (rows : List (List Color)) (fn cause : String) (leftover : Bool)
    (hrect : ∀ row ∈ rows, (c :: r).length ≤ row.length) :
    create_image_from_pixels ((c :: r) :: rows) fn
        (SaveResult.ioError cause leftover) =
      { printed := ["Error: Could not save image to " ++ fn],
        saveAttempts := 1, fileCreated := leftover, raised := none } := by
  have hfill : fillLoop (c :: r).length ((c :: r) :: rows) = Except.ok () :=
    fillLoop_ok (c :: r).length ((c :: r) :: rows)
      (fun row hrow => by
        rcases List.mem_cons.mp hrow with rfl | hmem
        · exact le_refl _
        · exact hrect row hmem)
  simp only [List.length_cons] at hfill
  simp [create_image_from_pixels, hfill]

/-- C5 amended witness: a failing save on a rectangular (second row even
longer) grid prints the path-only message once, and the file state is the
one the environment chose. -/
theorem writer_save_failure_behavior_witness :
    create_image_from_pixels [[(0,0,0)], [(1,1,1), (2,2,2)]] "out.png"
        (SaveResult.ioError "disk full" true) =
      { printed := ["Error: Could not save image to " ++ "out.png"],
        saveAttempts := 1, fileCreated := true, raised := none } :=
  writer_save_failure_behavior (0,0,0) [] [[(1,1,1), (2,2,2)]] "out.png"
    "disk full" true (by decide)

/-- C6: generate_pixel_data is a pure function of its arguments, so two
calls with identical arguments return structurally identical results. -/
theorem generate_deterministic (w h : Int) (palette : List Color) :
    generate_pixel_data w h palette = generate_pixel_data w h palette := rfl

/-- C7: the two concrete scenarios of the spec: the 4 by 2 grid over the
two-gray palette, and the 1 by 1 grid over any non-empty palette, which is
[[palette[0]]]. -/
theorem generate_concrete_scenarios :
    generate_pixel_data 4 2 [(50,50,50), (200,200,200)] =
      Except.ok [[(50,50,50), (200,200,200), (50,50,50), (200,200,200)],
                 [(200,200,200), (50,50,50), (200,200,200), (50,50,50)]] ∧
    ∀ (p0 : Color) (ps : List Color),
      generate_pixel_data 1 1 (p0 :: ps) = Except.ok [[p0]] :=
  ⟨rfl, fun p0 ps => rfl⟩

/-- C8: the source's nested boolean condition equals the spec's parity
predicate (x mod 2 == 0) == (y mod 2 == 0) at every pair of integers. -/
theorem pattern_cond_matches_spec_parity (x y : Int) :
    pattern_cond x y = spec_parity x y := by
  unfold pattern_cond spec_parity
  cases h1 : (x % 2 == 0 : Bool) <;> cases h2 : (y % 2 == 0 : Bool) <;>
    simp [bne, h1, h2]

/-- C9: generate_pixel_data never consults palette entries beyond index 1:
two palettes agreeing on their first two entries give identical grids, for
every width and height. -/
theorem generate_ignores_palette_tail (w h : Int) (p0 p1 : Color)
    (ps qs : List Color) :
    generate_pixel_data w h (p0 :: p1 :: ps) =
      generate_pixel_data w h (p0 :: p1 :: qs) :=
  (generate_pair w h p0 p1 ps).trans (generate_pair w h p0 p1 qs).symm

/-- C10: non-positive dimensions raise nothing and touch no palette entry:
any non-positive height gives the empty grid, and a non-positive width
with positive height gives exactly height empty rows, for every palette
including the empty one. -/
theorem generate_nonpositive_dims (w h : Int) (palette : List Color) :
    (h ≤ 0 → generate_pixel_data w h palette = Except.ok []) ∧
    (w ≤ 0 → 0 < h →
      generate_pixel_data w h palette = Except.ok (List.replicate h.toNat [])) := by
  constructor
  · intro hh
    unfold generate_pixel_data
    rw [pyRange_nonpos hh]
    rfl
  · intro hw _
    unfold generate_pixel_data
    rw [gridLoop_zero_width palette hw, List.map_const', pyRange_length]

/-- C10 witness: a negative height gives the empty grid even with an empty
palette, and a negative width with height 2 gives two empty rows. -/
theorem generate_nonpositive_dims_witness :
    generate_pixel_data 7 (-2) [] = Except.ok [] ∧
    generate_pixel_data (-3) 2 [] = Except.ok (List.replicate (2 : Int).toNat []) :=
  ⟨(generate_nonpositive_dims 7 (-2) []).1 (by decide),
   (generate_nonpositive_dims (-3) 2 []).2 (by decide) (by decide)⟩
